import Mathlib

/-!
A verification development for the perfume-store backend's order-payment
lifecycle (`main.py`, `schemas.py`): order creation with optional payment-intent
issuance, HMAC-SHA-256 callback verification, and the status transition on the
order record.

The embedding is shallow and executable:

* SHA-256 (FIPS 180-4) and HMAC (RFC 2104) are implemented over byte lists
  (`Nat` bytes, 32-bit words as `Nat` reduced mod `2^32`), mirroring
  `hashlib.sha256` / `hmac.new(...).hexdigest()`. The implementation was
  checked against the FIPS and RFC 4231 test vectors.
* Python floats are modelled by `PyNum`: an exact rational, or one of the
  non-finite values `inf`, `-inf`, `nan`. Python `int()` on a float truncates
  toward zero (`pyTrunc`) and raises on non-finite input (`pyIntOf`);
  comparisons against `nan` are false (`pyGeZero`).
* The document store is a list of records; `update_one` patches the first
  record matching the filter (`updateOne`). `create_document` lives in
  `database.py`, which is not among the sources; it is modelled from the
  spec's storage-port description (insert one record, return a stable
  non-empty identifier).
* FastAPI handlers are state-passing functions. A `raise HTTPException`
  inside a `try` body is caught by the handler's own `except Exception`
  clause and re-raised as status 500 with `str(e)`; Starlette renders
  `str(HTTPException(code, detail))` as `"code: detail"`, so the nested
  raises surface as 500 with a prefixed detail string.
-/

namespace PerfumeStore

/-! ## 32-bit words and SHA-256 (hashlib.sha256) -/

/-- Reduce a natural number to a 32-bit word. -/
def w32 (n : Nat) : Nat := n % 4294967296

/-- Rotate a 32-bit word right by `k` bits. -/
def rotr (k b : Nat) : Nat := w32 ((b >>> k) ||| (b <<< (32 - k)))

/-- FIPS 180-4 Σ₀. -/
def bigSigma0 (x : Nat) : Nat := rotr 2 x ^^^ rotr 13 x ^^^ rotr 22 x

/-- FIPS 180-4 Σ₁. -/
def bigSigma1 (x : Nat) : Nat := rotr 6 x ^^^ rotr 11 x ^^^ rotr 25 x

/-- FIPS 180-4 σ₀. -/
def smallSigma0 (x : Nat) : Nat := rotr 7 x ^^^ rotr 18 x ^^^ (x >>> 3)

/-- FIPS 180-4 σ₁. -/
def smallSigma1 (x : Nat) : Nat := rotr 17 x ^^^ rotr 19 x ^^^ (x >>> 10)

/-- FIPS 180-4 Ch; the complement is taken within 32 bits. -/
def chFn (x y z : Nat) : Nat := (x &&& y) ^^^ ((x ^^^ 4294967295) &&& z)

/-- FIPS 180-4 Maj. -/
def majFn (x y z : Nat) : Nat := (x &&& y) ^^^ (x &&& z) ^^^ (y &&& z)

/-- The eight-word working state of the SHA-256 compression function. -/
structure Sha256St where
  a : Nat
  b : Nat
  c : Nat
  d : Nat
  e : Nat
  f : Nat
  g : Nat
  h : Nat

/-- Initial hash value H⁽⁰⁾ (FIPS 180-4 §5.3.3, here in decimal). -/
def sha256Init : Sha256St :=
  ⟨1779033703, 3144134277, 1013904242, 2773480762,
   1359893119, 2600822924, 528734635, 1541459225⟩

/-- The 64 round constants K (FIPS 180-4 §4.2.2, here in decimal). -/
def sha256K : List Nat :=
  [1116352408, 1899447441, 3049323471, 3921009573, 961987163,
   1508970993, 2453635748, 2870763221, 3624381080, 310598401,
   607225278, 1426881987, 1925078388, 2162078206, 2614888103,
   3248222580, 3835390401, 4022224774, 264347078, 604807628,
   770255983, 1249150122, 1555081692, 1996064986, 2554220882,
   2821834349, 2952996808, 3210313671, 3336571891, 3584528711,
   113926993, 338241895, 666307205, 773529912, 1294757372,
   1396182291, 1695183700, 1986661051, 2177026350, 2456956037,
   2730485921, 2820302411, 3259730800, 3345764771, 3516065817,
   3600352804, 4094571909, 275423344, 430227734, 506948616,
   659060556, 883997877, 958139571, 1322822218, 1537002063,
   1747873779, 1955562222, 2024104815, 2227730452, 2361852424,
   2428436474, 2756734187, 3204031479, 3329325298]

/-- One round of the SHA-256 compression function; `kw` is `K[i] + W[i]`. -/
def sha256Round (st : Sha256St) (kw : Nat) : Sha256St :=
  let t1 := w32 (st.h + bigSigma1 st.e + chFn st.e st.f st.g + kw)
  let t2 := w32 (bigSigma0 st.a + majFn st.a st.b st.c)
  ⟨w32 (t1 + t2), st.a, st.b, st.c, w32 (st.d + t1), st.e, st.f, st.g⟩

/-- Big-endian 32-bit words from a byte list (groups of four; a trailing
incomplete group is dropped — padded input is always a multiple of four). -/
def wordsOfBytes : List Nat → List Nat
  | b0 :: b1 :: b2 :: b3 :: rest => (((b0 * 256 + b1) * 256 + b2) * 256 + b3) :: wordsOfBytes rest
  | _ => []

/-- The 64-entry message schedule W from the 16 words of one block. -/
def sha256Schedule (block : List Nat) : List Nat :=
  (List.range 64).foldl
    (fun w i =>
      if i < 16 then w ++ [block.getD i 0]
      else w ++ [w32 (w.getD (i - 16) 0 + smallSigma0 (w.getD (i - 15) 0) +
                      w.getD (i - 7) 0 + smallSigma1 (w.getD (i - 2) 0))]) []

/-- Process one padded 64-byte block. -/
def sha256Block (st : Sha256St) (block : List Nat) : Sha256St :=
  let ws := sha256Schedule (wordsOfBytes block)
  let r := (List.zipWith (fun k w => k + w) sha256K ws).foldl sha256Round st
  ⟨w32 (st.a + r.a), w32 (st.b + r.b), w32 (st.c + r.c), w32 (st.d + r.d),
   w32 (st.e + r.e), w32 (st.f + r.f), w32 (st.g + r.g), w32 (st.h + r.h)⟩

/-- Big-endian byte rendering of `v` in exactly the given number of bytes. -/
def natToBytesBE (v : Nat) : Nat → List Nat
  | 0 => []
  | n + 1 => natToBytesBE (v / 256) n ++ [v % 256]

/-- SHA-256 padding: append `0x80`, zeros up to 56 mod 64, then the 8-byte
big-endian bit length. -/
def sha256Pad (msg : List Nat) : List Nat :=
  msg ++ [128] ++ List.replicate ((119 - msg.length % 64) % 64) 0 ++ natToBytesBE (msg.length * 8) 8

/-- Split a list into successive chunks of 64 entries. -/
def toBlocks (l : List Nat) : List (List Nat) :=
  if h : l = [] then [] else l.take 64 :: toBlocks (l.drop 64)
termination_by l.length
decreasing_by
  simp only [List.length_drop]
  exact Nat.sub_lt (List.length_pos.mpr h) (by omega)

/-- The 32 digest bytes of a final hash state, big-endian per word. -/
def stateBytes (st : Sha256St) : List Nat :=
  natToBytesBE st.a 4 ++ natToBytesBE st.b 4 ++ natToBytesBE st.c 4 ++ natToBytesBE st.d 4 ++
  natToBytesBE st.e 4 ++ natToBytesBE st.f 4 ++ natToBytesBE st.g 4 ++ natToBytesBE st.h 4

/-- SHA-256 of a byte list, as its 32-byte digest. -/
def sha256 (msg : List Nat) : List Nat :=
  stateBytes ((toBlocks (sha256Pad msg)).foldl sha256Block sha256Init)

/-- HMAC-SHA-256 (RFC 2104) of a message under a key, as a 32-byte digest. -/
def hmacSha256 (key msg : List Nat) : List Nat :=
  let k0 := if 64 < key.length then sha256 key else key
  let kp := k0 ++ List.replicate (64 - k0.length) 0
  sha256 ((kp.map (fun b => b ^^^ 92)) ++ sha256 ((kp.map (fun b => b ^^^ 54)) ++ msg))

/-- The sixteen lowercase hexadecimal digit characters. -/
def hexAlphabet : List Char := "0123456789abcdef".data

/-- The lowercase hexadecimal digit for a value below 16 (on that range,
`Nat.digitChar` is exactly Python's lowercase hex digit). -/
def hexDigit (n : Nat) : Char := Nat.digitChar n

/-- Lowercase hex rendering of a byte list, two digits per byte. -/
def hexOfBytes : List Nat → List Char
  | [] => []
  | b :: rest => hexDigit (b / 16 % 16) :: hexDigit (b % 16) :: hexOfBytes rest

/-- UTF-8 encoding of one character. -/
def utf8Char (c : Char) : List Nat :=
  let n := c.toNat
  if n < 128 then [n]
  else if n < 2048 then [192 ||| (n >>> 6), 128 ||| (n &&& 63)]
  else if n < 65536 then [224 ||| (n >>> 12), 128 ||| ((n >>> 6) &&& 63), 128 ||| (n &&& 63)]
  else [240 ||| (n >>> 18), 128 ||| ((n >>> 12) &&& 63), 128 ||| ((n >>> 6) &&& 63), 128 ||| (n &&& 63)]

/-- UTF-8 encoding of a string as a byte list — Python `bytes(s, "utf-8")`. -/
def utf8Bytes (s : String) : List Nat :=
  (s.data.map utf8Char).flatten

/-- Python `hmac.new(bytes(key), msg=bytes(msg), digestmod=hashlib.sha256).hexdigest()`:
the lowercase hex HMAC-SHA-256 digest of `msg` under `key`. -/
def hmacSha256Hex (key msg : String) : String :=
  String.mk (hexOfBytes (hmacSha256 (utf8Bytes key) (utf8Bytes msg)))

/-! ## Python float values

The monetary fields are Python floats. We model a float value exactly: a
rational number, or one of the non-finite floats. The reference inputs in the
spec (`49.99`, `1550.00`) are exactly representable in this model, and the
operations the code performs on them (`* 100`, `int(...)`, `>= 0`) follow
Python's semantics on the modelled value. -/

/-- A Python float value: an exact finite number or a non-finite float. -/
inductive PyNum where
  | fin (q : ℚ)
  | inf
  | neginf
  | nan
deriving DecidableEq

/-- Python `int(q)` for finite `q`: truncation toward zero. -/
def pyTrunc (q : ℚ) : ℤ := q.num.tdiv q.den

/-- Python `int(x)` on a float: truncates a finite value toward zero, raises
`OverflowError` / `ValueError` (with the messages below) on non-finite input. -/
def pyIntOf : PyNum → Except String ℤ
  | .fin q => .ok (pyTrunc q)
  | .inf => .error "cannot convert float infinity to integer"
  | .neginf => .error "cannot convert float infinity to integer"
  | .nan => .error "cannot convert float NaN to integer"

/-- Python `x * 100` on a float value. -/
def pyMul100 : PyNum → PyNum
  | .fin q => .fin (q * 100)
  | .inf => .inf
  | .neginf => .neginf
  | .nan => .nan

/-- Python `x >= 0` on a float value; every comparison against `nan` is false. -/
def pyGeZero : PyNum → Bool
  | .fin q => decide (0 ≤ q)
  | .inf => true
  | .neginf => false
  | .nan => false

/-! ## Data model (`schemas.py`)

`Order` and `OrderItem` mirror the pydantic models field for field; pydantic's
field constraints (`ge=0`, `ge=1`, the `Literal` enumerations) become
`validItem` / `validateOrder`, the shape validation FastAPI runs before a
request body reaches a handler. `datetime` fields are carried as opaque
optional strings; nothing reads them. -/

/-- One order line — `schemas.OrderItem`. -/
structure OrderItem where
  product_id : String
  title : String
  size_ml : ℤ
  price : PyNum
  quantity : ℤ
deriving DecidableEq

/-- An order record — `schemas.Order`. Defaults follow the schema. -/
structure Order where
  customer_name : String
  customer_email : String
  customer_phone : String
  shipping_address : String
  items : List OrderItem
  subtotal : PyNum
  shipping_fee : PyNum := .fin 0
  total_amount : PyNum
  currency : String := "INR"
  status : String := "pending"
  razorpay_order_id : Option String := none
  razorpay_payment_id : Option String := none
  razorpay_signature : Option String := none
  created_at : Option String := none
  updated_at : Option String := none
deriving DecidableEq

/-- The status values admitted by `Order.status`'s `Literal` type. -/
def validStatus (s : String) : Bool :=
  s == "pending" || s == "paid" || s == "processing" ||
  s == "shipped" || s == "delivered" || s == "cancelled"

/-- Pydantic validation of one order item: `price >= 0`, `quantity >= 1`. -/
def validItem (it : OrderItem) : Bool :=
  pyGeZero it.price && decide (1 ≤ it.quantity)

/-- Pydantic validation of an order body: the `ge=0` constraints on the three
monetary fields, the item constraints, and the two `Literal` enumerations. -/
def validateOrder (o : Order) : Bool :=
  o.items.all validItem && pyGeZero o.subtotal && pyGeZero o.shipping_fee &&
  pyGeZero o.total_amount && (o.currency == "INR") && validStatus o.status

/-! ## Document store -/

/-- A stored order document: the record plus the store-assigned `_id`. -/
structure StoredOrder where
  id : String
  doc : Order
deriving DecidableEq

/-- The identifier the store assigns to the next inserted document. -/
def freshId (st : List StoredOrder) : String := "doc_" ++ toString st.length

/-- Modelled from the spec: `create_document` is defined in `database.py`,
which is not among the sources; only its import and call sites are. The spec
describes the store as "a key-document store with a stable identifier per
inserted record" with port `Insert(collection, record) -> id`, so insertion
appends one record and returns its fresh, non-empty identifier. -/
def create_document (st : List StoredOrder) (o : Order) : List StoredOrder × String :=
  (st ++ [⟨freshId st, o⟩], freshId st)

/-- MongoDB `update_one(filter, patch)`: patch the first matching document,
leave everything else in place; no match means no change. -/
def updateOne (p : StoredOrder → Bool) (f : StoredOrder → StoredOrder) :
    List StoredOrder → List StoredOrder
  | [] => []
  | s :: rest => if p s then f s :: rest else s :: updateOne p f rest

/-! ## Operations (`main.py`) -/

/-- The payment gateway's HTTP response to `POST /v1/orders`: status code, raw
body text, and the parsed body's optional `id` field (`data.get("id")`). -/
structure GatewayResponse where
  status_code : Nat
  text : String
  id : Option String
deriving DecidableEq

/-- The JSON body `create_order` answers with, or the `HTTPException` it
raises. `ok_no_gateway` is the credentials-absent branch
`{"order_id": _id, "razorpay": "not_configured"}`; `ok` is the configured
branch `{"order_id": _id, "razorpay_order_id": ..., "amount": amount_paise}`. -/
inductive CreateResult where
  | ok_no_gateway (order_id : String) (razorpay : String)
  | ok (order_id : String) (razorpay_order_id : Option String) (amount : ℤ)
  | err (status : Nat) (detail : String)
deriving DecidableEq

/-- The observable outcome of a `create_order` call: the store afterwards, the
response, and whether the outbound gateway call was made. -/
structure CreateOutcome where
  store : List StoredOrder
  result : CreateResult
  gatewayCalled : Bool
deriving DecidableEq

/-- `POST /api/orders` (`main.create_order`). With either credential empty
(Python falsiness of the env strings) the order is persisted as-is and the
response carries the `"not_configured"` marker. Otherwise
`amount_paise = int(order.total_amount * 100)` is computed — a non-finite
total raises there, and the handler's `except Exception` turns the raise into
a 500 with `str(e)`, before any gateway call. Then the gateway is called; a
status `>= 300` raises `HTTPException(502, r.text)`, which the same `except`
re-wraps as a 500 whose detail is `str(HTTPException(502, r.text))`, i.e.
`"502: " ++ r.text`, with nothing persisted. On success the gateway's `id`
is attached as `razorpay_order_id` and the order is persisted. The random
receipt token is not observable in the outcome and is not modelled; the
store and the gateway transport are assumed not to raise on their own. -/
def create_order (keyId keySecret : String) (gw : GatewayResponse)
    (st : List StoredOrder) (o : Order) : CreateOutcome :=
  if keyId = "" ∨ keySecret = "" then
    let r := create_document st o
    ⟨r.1, .ok_no_gateway r.2 "not_configured", false⟩
  else
    match pyIntOf (pyMul100 o.total_amount) with
    | .error e => ⟨st, .err 500 e, false⟩
    | .ok amount =>
      if 300 ≤ gw.status_code then
        ⟨st, .err 500 ("502: " ++ gw.text), true⟩
      else
        let o2 := { o with razorpay_order_id := gw.id }
        let r := create_document st o2
        ⟨r.1, .ok r.2 gw.id amount, true⟩

/-- `POST /api/orders` including FastAPI's request validation: a body that
fails pydantic validation is rejected with a 422 before the handler runs. -/
def post_api_orders (keyId keySecret : String) (gw : GatewayResponse)
    (st : List StoredOrder) (o : Order) : CreateOutcome :=
  if validateOrder o then create_order keyId keySecret gw st o
  else ⟨st, .err 422 "validation error", false⟩

/-- The request body of `POST /api/orders/verify` (`main.PaymentVerification`). -/
structure PaymentVerification where
  razorpay_order_id : String
  razorpay_payment_id : String
  razorpay_signature : String
deriving DecidableEq

/-- The response of `verify_payment`: the skipped marker
`{"status": "skipped"}`, the success body `{"status": "success"}`, or the
`HTTPException` surfaced to the caller. -/
inductive VerifyResult where
  | skipped
  | success
  | err (status : Nat) (detail : String)
deriving DecidableEq

/-- The expected signature `verify_payment` computes:
`hmac.new(bytes(secret), msg=bytes(orderId + "|" + paymentId), digestmod=sha256).hexdigest()`. -/
def generated_signature (secret oid pid : String) : String :=
  hmacSha256Hex secret (oid ++ "|" ++ pid)

/-- Does a stored order's `razorpay_order_id` equal the supplied intent id —
the `update_one` filter of `verify_payment`. -/
def orderMatches (oid : String) (s : StoredOrder) : Bool :=
  s.doc.razorpay_order_id == some oid

/-- The `$set` patch `{"status": "paid"}`. -/
def setPaid (s : StoredOrder) : StoredOrder :=
  { s with doc := { s.doc with status := "paid" } }

/-- `POST /api/orders/verify` (`main.verify_payment`). An empty configured
secret (Python falsiness) short-circuits to the skipped response. Otherwise
the expected digest is compared to the supplied one; on match the first order
whose `razorpay_order_id` equals the supplied intent id has its status set to
`"paid"`; on mismatch `HTTPException(400, "Invalid signature")` is raised
inside the `try`, caught by the handler's own `except Exception`, and
re-raised as a 500 whose detail is `str(e) = "400: Invalid signature"`. -/
def verify_payment (secret : String) (st : List StoredOrder)
    (body : PaymentVerification) : List StoredOrder × VerifyResult :=
  if secret = "" then (st, .skipped)
  else if generated_signature secret body.razorpay_order_id body.razorpay_payment_id =
      body.razorpay_signature then
    (updateOne (orderMatches body.razorpay_order_id) setPaid st, .success)
  else
    (st, .err 500 "400: Invalid signature")

/-- `PATCH /api/orders/{order_id}/status` (`main.update_order_status`): set the
status of the order with the given primary `_id` and answer
`{"status": "updated"}`. (`ObjectId` parsing is not modelled; an unparsable id
raises before `update_one`, which also leaves the store unchanged.) -/
def update_order_status (st : List StoredOrder) (order_id newStatus : String) :
    List StoredOrder × String :=
  (updateOne (fun s => s.id == order_id)
    (fun s => { s with doc := { s.doc with status := newStatus } }) st, "updated")

/-! ## Spec-side definitions and concrete fixtures -/

/-- The amount computation as the spec words it: `amount_minor =
round(total_amount * 100)`, rounded to the nearest integer. Compared against
the code's `int(total_amount * 100)` truncation. -/
def amount_minor_spec (q : ℚ) : ℤ := round (q * 100)

/-- The amount the code sends to the gateway for a finite total:
`int(total_amount * 100)`, truncation toward zero. -/
def amount_paise (q : ℚ) : ℤ := pyTrunc (q * 100)

/-- The 4xx status class — the spec's "maps to a client error at the
boundary". -/
def isClientError (code : Nat) : Prop := 400 ≤ code ∧ code < 500

/-- Erase the status field — the one field the two status-writing operations
are allowed to change. -/
def stripStatus (s : StoredOrder) : StoredOrder :=
  { s with doc := { s.doc with status := "" } }

/-- A demo order line. -/
def demoItem : OrderItem := ⟨"prod_1", "Amber Oud 50ml", 50, .fin 1500, 1⟩

/-- A schema-valid order draft (totals as in the spec's end-to-end scenario). -/
def demoOrder : Order :=
  { customer_name := "Asha Rao"
    customer_email := "asha@example.com"
    customer_phone := "+911234567890"
    shipping_address := "1 MG Road, Bengaluru"
    items := [demoItem]
    subtotal := .fin 1500
    shipping_fee := .fin 50
    total_amount := .fin 1550 }

/-- A one-order store whose record carries the demo payment-intent id. -/
def demoStore : List StoredOrder :=
  [⟨"doc_0", { demoOrder with razorpay_order_id := some "order_ABC123" }⟩]

/-- A successful gateway response. -/
def gw200 : GatewayResponse := ⟨200, "", some "order_ABC123"⟩

/-- A failing gateway response (status ≥ 300) with a raw diagnostic body. -/
def gwFail : GatewayResponse := ⟨401, "Authentication failed", none⟩

/-- The demo draft with total 49.99 — the spec's rounding example. -/
def draft4999 : Order := { demoOrder with total_amount := .fin ((4999 : ℚ) / 100) }

/-- The demo draft with total 49.999 — separates truncation from rounding. -/
def draft49999 : Order := { demoOrder with total_amount := .fin ((49999 : ℚ) / 1000) }

/-- The demo draft with a negative total. -/
def draftNeg : Order := { demoOrder with total_amount := .fin (-1) }

/-- The demo draft with an infinite total. -/
def draftInf : Order := { demoOrder with total_amount := .inf }

/-- The demo draft submitted with status `"cancelled"` — schema-valid, since
`"cancelled"` is in the status `Literal`. -/
def draftCancelled : Order := { demoOrder with status := "cancelled" }

/-! ## Helper lemmas -/

theorem natToBytesBE_length (n : Nat) : ∀ v, (natToBytesBE v n).length = n := by
  induction n with
  | zero => intro v; rfl
  | succ k ih => intro v; simp [natToBytesBE, ih]

theorem stateBytes_length (st : Sha256St) : (stateBytes st).length = 32 := by
  simp [stateBytes, natToBytesBE_length]

theorem sha256_length (msg : List Nat) : (sha256 msg).length = 32 :=
  stateBytes_length _

theorem hexOfBytes_length : ∀ l : List Nat, (hexOfBytes l).length = 2 * l.length := by
  intro l
  induction l with
  | nil => rfl
  | cons b t ih => simp [hexOfBytes, ih]; ring

theorem hmacSha256_length (key msg : List Nat) : (hmacSha256 key msg).length = 32 := by
  simp [hmacSha256, sha256_length]

theorem hmacSha256Hex_length (key msg : String) : (hmacSha256Hex key msg).length = 64 := by
  have h : (hmacSha256Hex key msg).length =
      (hexOfBytes (hmacSha256 (utf8Bytes key) (utf8Bytes msg))).length := rfl
  rw [h, hexOfBytes_length, hmacSha256_length]

theorem generated_signature_length (secret oid pid : String) :
    (generated_signature secret oid pid).length = 64 :=
  hmacSha256Hex_length _ _

/-- A string that is not 64 characters long cannot be the expected digest. -/
theorem generated_signature_ne (secret oid pid s : String) (h : s.length ≠ 64) :
    generated_signature secret oid pid ≠ s := by
  intro he
  exact h (he ▸ generated_signature_length secret oid pid)

theorem hexDigit_mem (n : Nat) (h : n < 16) : hexDigit n ∈ hexAlphabet := by
  have hd : ∀ m < 16, hexDigit m ∈ hexAlphabet := by decide
  exact hd n h

theorem hexOfBytes_mem : ∀ l : List Nat, ∀ c ∈ hexOfBytes l, c ∈ hexAlphabet := by
  intro l
  induction l with
  | nil => intro c hc; cases hc
  | cons b t ih =>
    intro c hc
    simp only [hexOfBytes, List.mem_cons] at hc
    rcases hc with rfl | rfl | hc
    · exact hexDigit_mem _ (Nat.mod_lt _ (by omega))
    · exact hexDigit_mem _ (Nat.mod_lt _ (by omega))
    · exact ih c hc

theorem pyTrunc_eq_floor (q : ℚ) (h : 0 ≤ q) : pyTrunc q = ⌊q⌋ := by
  rw [Rat.floor_def, pyTrunc, Int.tdiv_eq_ediv (Rat.num_nonneg.mpr h) (by positivity)]

theorem freshId_ne_empty (st : List StoredOrder) : freshId st ≠ "" := by
  intro h
  have h2 : (freshId st).length = 0 := by rw [h]; rfl
  rw [freshId, String.length_append] at h2
  have h3 : ("doc_" : String).length = 4 := rfl
  omega

theorem updateOne_map_eq {α : Type} (p : StoredOrder → Bool) (f : StoredOrder → StoredOrder)
    (g : StoredOrder → α) (hg : ∀ s, g (f s) = g s) :
    ∀ l : List StoredOrder, (updateOne p f l).map g = l.map g := by
  intro l
  induction l with
  | nil => rfl
  | cons a t ih =>
    by_cases hp : p a
    · simp [updateOne, hp, hg]
    · simp [updateOne, hp, ih]

theorem updateOne_no_match (p : StoredOrder → Bool) (f : StoredOrder → StoredOrder) :
    ∀ l : List StoredOrder, (∀ s ∈ l, p s = false) → updateOne p f l = l := by
  intro l
  induction l with
  | nil => intro _; rfl
  | cons a t ih =>
    intro h
    have ha := h a (by simp)
    simp [updateOne, ha, ih (fun s hs => h s (by simp [hs]))]

theorem orderMatches_setPaid (oid : String) (s : StoredOrder) :
    orderMatches oid (setPaid s) = orderMatches oid s := rfl

theorem setPaid_idem (s : StoredOrder) : setPaid (setPaid s) = setPaid s := rfl

/-- When at most one stored order matches the intent id, every matching order
left in the store after the targeted update carries status `"paid"`. -/
theorem updateOne_setPaid_mem (oid : String) :
    ∀ l : List StoredOrder, l.countP (orderMatches oid) ≤ 1 →
      ∀ s ∈ updateOne (orderMatches oid) setPaid l, orderMatches oid s = true →
        s.doc.status = "paid" := by
  intro l
  induction l with
  | nil => intro _ s hs; cases hs
  | cons a t ih =>
    intro hc s hs hm
    by_cases hp : orderMatches oid a
    · rw [updateOne, if_pos hp] at hs
      rcases List.mem_cons.mp hs with rfl | hst
      · rfl
      · have hzero : t.countP (orderMatches oid) = 0 := by
          rw [List.countP_cons_of_pos _ _ hp] at hc
          omega
        have hnot := List.countP_eq_zero.mp hzero s hst
        simp [hm] at hnot
    · rw [updateOne, if_neg hp] at hs
      rcases List.mem_cons.mp hs with rfl | hst
      · exact absurd hm hp
      · refine ih ?_ s hst hm
        rw [List.countP_cons_of_neg _ _ hp] at hc
        exact hc

theorem updateOne_setPaid_idem (oid : String) :
    ∀ l : List StoredOrder,
      updateOne (orderMatches oid) setPaid (updateOne (orderMatches oid) setPaid l) =
        updateOne (orderMatches oid) setPaid l := by
  intro l
  induction l with
  | nil => rfl
  | cons a t ih =>
    by_cases hp : orderMatches oid a
    · simp [updateOne, hp, orderMatches_setPaid, setPaid_idem]
    · simp [updateOne, hp, ih]

/-- Whatever branch `verify_payment` takes, a projection that ignores the
status field sees the store unchanged. -/
theorem verify_payment_map_fst {α : Type} (g : StoredOrder → α)
    (hg : ∀ s, g (setPaid s) = g s) (secret : String) (st : List StoredOrder)
    (body : PaymentVerification) :
    (verify_payment secret st body).1.map g = st.map g := by
  unfold verify_payment
  by_cases h1 : secret = ""
  · simp [h1]
  · by_cases h2 : generated_signature secret body.razorpay_order_id
        body.razorpay_payment_id = body.razorpay_signature
    · simp [h1, h2, updateOne_map_eq _ setPaid g hg st]
    · simp [h1, h2]

/-- The administrative status update likewise only ever writes the status
field. -/
theorem update_order_status_map_fst {α : Type} (g : StoredOrder → α)
    (hg : ∀ s ns, g { s with doc := { s.doc with status := ns } } = g s)
    (st : List StoredOrder) (oid newStatus : String) :
    (update_order_status st oid newStatus).1.map g = st.map g := by
  unfold update_order_status
  exact updateOne_map_eq _ _ g (fun s => hg s newStatus) st

/-! ## The claims -/

/-- C1: with the gateway secret configured and the supplied signature equal to
HMAC-SHA256(secret, orderIntentId + "|" + paymentId), `verify_payment` answers
success, the order whose `razorpay_order_id` equals the intent id (unique by
hypothesis) is left with status `"paid"`, and the call is idempotent: an
identical second call answers success again without an error and changes
nothing further, so the status stays `"paid"`. -/
theorem claim1_valid_signature_marks_paid (secret : String) (st : List StoredOrder)
    (oid pid sig : String) (hs : secret ≠ "")
    (hsig : sig = generated_signature secret oid pid)
    (huniq : st.countP (orderMatches oid) ≤ 1) :
    (verify_payment secret st ⟨oid, pid, sig⟩).2 = .success ∧
    (∀ s ∈ (verify_payment secret st ⟨oid, pid, sig⟩).1,
      orderMatches oid s = true → s.doc.status = "paid") ∧
    verify_payment secret (verify_payment secret st ⟨oid, pid, sig⟩).1 ⟨oid, pid, sig⟩ =
      ((verify_payment secret st ⟨oid, pid, sig⟩).1, .success) := by
  have hv : verify_payment secret st ⟨oid, pid, sig⟩ =
      (updateOne (orderMatches oid) setPaid st, .success) := by
    simp [verify_payment, hs, hsig]
  refine ⟨by rw [hv], ?_, ?_⟩
  · rw [hv]
    exact updateOne_setPaid_mem oid st huniq
  · rw [hv]
    simp [verify_payment, hs, hsig, updateOne_setPaid_idem]

/-- Concrete run of C1: signing `"order_ABC123|pay_XYZ789"` under the
configured secret and verifying twice against the demo store. -/
theorem claim1_witness :
    (verify_payment "whsec_demo" demoStore
      ⟨"order_ABC123", "pay_XYZ789",
        generated_signature "whsec_demo" "order_ABC123" "pay_XYZ789"⟩).2 = .success ∧
    verify_payment "whsec_demo"
        (verify_payment "whsec_demo" demoStore
          ⟨"order_ABC123", "pay_XYZ789",
            generated_signature "whsec_demo" "order_ABC123" "pay_XYZ789"⟩).1
        ⟨"order_ABC123", "pay_XYZ789",
          generated_signature "whsec_demo" "order_ABC123" "pay_XYZ789"⟩ =
      ((verify_payment "whsec_demo" demoStore
        ⟨"order_ABC123", "pay_XYZ789",
          generated_signature "whsec_demo" "order_ABC123" "pay_XYZ789"⟩).1, .success) := by
  have h := claim1_valid_signature_marks_paid "whsec_demo" demoStore
    "order_ABC123" "pay_XYZ789"
    (generated_signature "whsec_demo" "order_ABC123" "pay_XYZ789")
    (by decide) rfl (by decide)
  exact ⟨h.1, h.2.2⟩

/-- C4 (amended): on signature mismatch with a configured secret,
`verify_payment` mutates nothing; the signature-mismatch failure
(`HTTPException(400, "Invalid signature")`) is caught by the handler's own
catch-all and surfaces as a 500 server error carrying
`"400: Invalid signature"`. -/
theorem claim4_mismatch_no_mutation (secret : String) (st : List StoredOrder)
    (oid pid sig : String) (hs : secret ≠ "")
    (hne : generated_signature secret oid pid ≠ sig) :
    verify_payment secret st ⟨oid, pid, sig⟩ =
      (st, .err 500 "400: Invalid signature") := by
  simp [verify_payment, hs, hne]

/-- Concrete run of C4's amended statement on a forged signature. -/
theorem claim4_witness :
    verify_payment "whsec_demo" demoStore ⟨"order_ABC123", "pay_XYZ789", "forged"⟩ =
      (demoStore, .err 500 "400: Invalid signature") :=
  claim4_mismatch_no_mutation "whsec_demo" demoStore "order_ABC123" "pay_XYZ789" "forged"
    (by decide)
    (generated_signature_ne "whsec_demo" "order_ABC123" "pay_XYZ789" "forged" (by decide))

/-- C4 (counterexample to the claim as stated): the mismatch is not mapped to
a client error at the boundary — the handler's `except Exception` re-wraps the
400 and the caller sees status 500, a server error. -/
theorem claim4_counterexample :
    (verify_payment "whsec_demo" demoStore
      ⟨"order_ABC123", "pay_XYZ789", "sig_forged"⟩).2 =
      .err 500 "400: Invalid signature" ∧ ¬ isClientError 500 := by
  constructor
  · have hne := generated_signature_ne "whsec_demo" "order_ABC123" "pay_XYZ789"
      "sig_forged" (by decide)
    simp [verify_payment, hne]
  · simp [isClientError]

/-- C7: the expected signature is exactly the lowercase hex HMAC-SHA-256
digest of `orderIntentId + "|" + paymentId` keyed by the secret: it unfolds to
the digest computation, is 64 characters long, every character of it is a
lowercase hex digit, and it is deterministic — equal inputs give the equal
digest. -/
theorem claim7_expected_digest (secret oid pid : String) :
    generated_signature secret oid pid =
      String.mk (hexOfBytes (hmacSha256 (utf8Bytes secret) (utf8Bytes (oid ++ "|" ++ pid)))) ∧
    (generated_signature secret oid pid).length = 64 ∧
    (∀ c ∈ (generated_signature secret oid pid).data, c ∈ hexAlphabet) ∧
    (∀ s2 o2 p2 : String, s2 = secret → o2 = oid → p2 = pid →
      generated_signature s2 o2 p2 = generated_signature secret oid pid) := by
  refine ⟨rfl, generated_signature_length secret oid pid, ?_, ?_⟩
  · intro c hc
    exact hexOfBytes_mem _ c hc
  · intro s2 o2 p2 h1 h2 h3
    rw [h1, h2, h3]

/-- Concrete instance of C7: the demo digest is 64 characters long. -/
theorem claim7_witness :
    (generated_signature "whsec_demo" "order_ABC123" "pay_XYZ789").length = 64 :=
  (claim7_expected_digest "whsec_demo" "order_ABC123" "pay_XYZ789").2.1

/-- C8: a validly signed verification whose intent id matches no stored order
answers plain success — a silent no-op, not a distinct OrderNotFound error —
and the store, hence every order record, is unchanged. -/
theorem claim8_no_match_silent_success (secret : String) (st : List StoredOrder)
    (oid pid : String) (hs : secret ≠ "")
    (hnone : ∀ s ∈ st, orderMatches oid s = false) :
    verify_payment secret st ⟨oid, pid, generated_signature secret oid pid⟩ =
      (st, .success) := by
  have hv : verify_payment secret st ⟨oid, pid, generated_signature secret oid pid⟩ =
      (updateOne (orderMatches oid) setPaid st, .success) := by
    simp [verify_payment, hs]
  rw [hv, updateOne_no_match _ _ st hnone]

/-- Concrete run of C8 against the empty store. -/
theorem claim8_witness :
    verify_payment "whsec_demo" []
      ⟨"order_MISSING", "pay_XYZ789",
        generated_signature "whsec_demo" "order_MISSING" "pay_XYZ789"⟩ =
      ([], .success) :=
  claim8_no_match_silent_success "whsec_demo" [] "order_MISSING" "pay_XYZ789"
    (by decide) (by simp)

/-- C9: with no gateway secret configured (the empty, falsy env value),
`verify_payment` answers the skipped marker — not an error — for every order
intent id, payment id and signature, and performs no mutation. -/
theorem claim9_skipped_without_secret (st : List StoredOrder) (body : PaymentVerification) :
    verify_payment "" st body = (st, .skipped) := by
  simp [verify_payment]

/-- C10: neither `verify_payment` nor `update_order_status` writes any field
besides `status`: blanking the status field makes each output store equal to
its input store, and in particular each store's list of `razorpay_order_id`
values — set only at order creation — is unchanged by both operations. -/
theorem claim10_only_status_written (secret : String) (st : List StoredOrder)
    (body : PaymentVerification) (oid newStatus : String) :
    ((verify_payment secret st body).1.map stripStatus = st.map stripStatus) ∧
    ((update_order_status st oid newStatus).1.map stripStatus = st.map stripStatus) ∧
    ((verify_payment secret st body).1.map (fun s => s.doc.razorpay_order_id) =
      st.map (fun s => s.doc.razorpay_order_id)) ∧
    ((update_order_status st oid newStatus).1.map (fun s => s.doc.razorpay_order_id) =
      st.map (fun s => s.doc.razorpay_order_id)) :=
  ⟨verify_payment_map_fst stripStatus (fun _ => rfl) secret st body,
   update_order_status_map_fst stripStatus (fun _ _ => rfl) st oid newStatus,
   verify_payment_map_fst (fun s => s.doc.razorpay_order_id) (fun _ => rfl) secret st body,
   update_order_status_map_fst (fun s => s.doc.razorpay_order_id) (fun _ _ => rfl)
     st oid newStatus⟩

/-- C2 (amended): with credentials configured and a successful gateway
response, the minor-unit amount sent to the gateway is
`int(total_amount * 100)` — truncation toward zero, which coincides with the
floor on the schema's non-negative totals — and the order is persisted with
the gateway's intent id attached; on 49.99 truncation yields 4999 as the
claim's example expects. -/
theorem claim2_amount_truncation (keyId keySecret : String) (gw : GatewayResponse)
    (st : List StoredOrder) (o : Order) (q : ℚ)
    (hk : keyId ≠ "") (hsec : keySecret ≠ "")
    (htot : o.total_amount = .fin q) (hgw : gw.status_code < 300) :
    create_order keyId keySecret gw st o =
      ⟨st ++ [⟨freshId st, { o with razorpay_order_id := gw.id }⟩],
        .ok (freshId st) gw.id (amount_paise q), true⟩ ∧
    (0 ≤ q → amount_paise q = ⌊q * 100⌋) ∧
    amount_paise ((4999 : ℚ) / 100) = 4999 := by
  refine ⟨?_, ?_, ?_⟩
  · simp [create_order, hk, hsec, htot, pyMul100, pyIntOf, create_document,
      Nat.not_le.mpr hgw, amount_paise]
  · intro hq
    rw [amount_paise]
    exact pyTrunc_eq_floor _ (by positivity)
  · norm_num [amount_paise, pyTrunc]

/-- Concrete run of C2's amended statement on the spec's 49.99 example. -/
theorem claim2_witness :
    create_order "rzp_key" "whsec_demo" gw200 [] draft4999 =
      ⟨[⟨"doc_0", { draft4999 with razorpay_order_id := some "order_ABC123" }⟩],
        .ok "doc_0" (some "order_ABC123") (amount_paise ((4999 : ℚ) / 100)), true⟩ ∧
    amount_paise ((4999 : ℚ) / 100) = 4999 := by
  have h := claim2_amount_truncation "rzp_key" "whsec_demo" gw200 [] draft4999
    ((4999 : ℚ) / 100) (by decide) (by decide) rfl (by decide)
  exact ⟨h.1, h.2.2⟩

/-- C2 (counterexample to the claim as stated): for `total_amount = 49.999`
the code sends 4999 minor units, while rounding to the nearest integer gives
5000 — `int()` truncates, it does not round. -/
theorem claim2_counterexample :
    (create_order "rzp_key" "whsec_demo" gw200 [] draft49999).result =
      .ok "doc_0" (some "order_ABC123") 4999 ∧
    amount_minor_spec ((49999 : ℚ) / 1000) = 5000 ∧ (4999 : ℤ) ≠ 5000 := by
  refine ⟨?_, ?_, by decide⟩
  · simp [create_order, draft49999, demoOrder, pyMul100, pyIntOf, create_document,
      gw200, freshId]
    norm_num [pyTrunc]
    exact ⟨by decide, by decide⟩
  · rw [amount_minor_spec, round_eq,
      show (49999 : ℚ) / 1000 * 100 + 1 / 2 = 50004 / 10 by norm_num, Rat.floor_def]
    norm_num

/-- C3: with credentials configured and a finite total, a gateway response of
status ≥ 300 fails the whole operation — the payment-gateway failure raised as
a 502 and re-wrapped by the catch-all into the surfaced 500 — with the
gateway's raw body carried inside the error detail, and the store unchanged:
zero order documents are persisted. -/
theorem claim3_gateway_error_no_persist (keyId keySecret : String) (gw : GatewayResponse)
    (st : List StoredOrder) (o : Order) (q : ℚ)
    (hk : keyId ≠ "") (hsec : keySecret ≠ "")
    (htot : o.total_amount = .fin q) (hgw : 300 ≤ gw.status_code) :
    create_order keyId keySecret gw st o = ⟨st, .err 500 ("502: " ++ gw.text), true⟩ ∧
    ∃ head, "502: " ++ gw.text = head ++ gw.text := by
  constructor
  · simp [create_order, hk, hsec, htot, pyMul100, pyIntOf, hgw]
  · exact ⟨"502: ", rfl⟩

/-- Concrete run of C3 on a 401 gateway response. -/
theorem claim3_witness :
    create_order "rzp_key" "whsec_demo" gwFail demoStore demoOrder =
      ⟨demoStore, .err 500 ("502: " ++ gwFail.text), true⟩ :=
  (claim3_gateway_error_no_persist "rzp_key" "whsec_demo" gwFail demoStore demoOrder
    1550 (by decide) (by decide) rfl (by decide)).1

/-- C5 (amended): a negative, NaN, or negative-infinity total never reaches
`create_order` — the schema's `ge=0` constraint (under which both `nan >= 0`
and `-inf >= 0` are false) rejects the body as a 422 validation error with
nothing persisted and no gateway call. A positive-infinity total passes the
`ge=0` validation, and `create_order` fails with the generic 500
`int()`-conversion error before calling the gateway or persisting anything.
No distinct InvalidAmount failure exists anywhere on these paths, and
`create_order` itself performs no amount validation. -/
theorem claim5_amount_rejection_paths (keyId keySecret : String) (gw : GatewayResponse)
    (st : List StoredOrder) (o : Order) (hk : keyId ≠ "") (hsec : keySecret ≠ "") :
    (∀ q : ℚ, o.total_amount = .fin q → q < 0 →
      post_api_orders keyId keySecret gw st o = ⟨st, .err 422 "validation error", false⟩) ∧
    (o.total_amount = .nan →
      post_api_orders keyId keySecret gw st o = ⟨st, .err 422 "validation error", false⟩) ∧
    (o.total_amount = .neginf →
      post_api_orders keyId keySecret gw st o = ⟨st, .err 422 "validation error", false⟩) ∧
    (o.total_amount = .inf → validateOrder o = true →
      post_api_orders keyId keySecret gw st o =
        ⟨st, .err 500 "cannot convert float infinity to integer", false⟩) := by
  refine ⟨?_, ?_, ?_, ?_⟩
  · intro q htot hq
    have hval : validateOrder o = false := by
      simp [validateOrder, htot, pyGeZero, not_le.mpr hq]
    simp [post_api_orders, hval]
  · intro htot
    have hval : validateOrder o = false := by
      simp [validateOrder, htot, pyGeZero]
    simp [post_api_orders, hval]
  · intro htot
    have hval : validateOrder o = false := by
      simp [validateOrder, htot, pyGeZero]
    simp [post_api_orders, hval]
  · intro htot hval
    simp [post_api_orders, hval, create_order, hk, hsec, htot, pyMul100, pyIntOf]

/-- Concrete run of C5's amended statement: an infinite total passes schema
validation and dies in the handler with the generic conversion error. -/
theorem claim5_witness :
    post_api_orders "rzp_key" "whsec_demo" gw200 [] draftInf =
      ⟨[], .err 500 "cannot convert float infinity to integer", false⟩ :=
  (claim5_amount_rejection_paths "rzp_key" "whsec_demo" gw200 [] draftInf
    (by decide) (by decide)).2.2.2 rfl (by decide)

/-- C5 (counterexample to the claim as stated): `create_order` itself, with
credentials configured, does not reject a negative total at all — it calls
the gateway with amount -100, persists the order, and answers success. -/
theorem claim5_counterexample :
    (create_order "rzp_key" "whsec_demo" gw200 [] draftNeg).result =
      .ok "doc_0" (some "order_ABC123") (-100) ∧
    (create_order "rzp_key" "whsec_demo" gw200 [] draftNeg).gatewayCalled = true ∧
    (create_order "rzp_key" "whsec_demo" gw200 [] draftNeg).store.length = 1 := by
  refine ⟨?_, ?_, ?_⟩
  · simp [create_order, draftNeg, demoOrder, pyMul100, pyIntOf, create_document,
      gw200, freshId]
    norm_num [pyTrunc]
    decide
  · simp [create_order, draftNeg, demoOrder, pyMul100, pyIntOf, gw200]
  · simp [create_order, draftNeg, demoOrder, pyMul100, pyIntOf, create_document, gw200]

/-- C6 (amended): with either credential absent, `create_order` makes no
gateway call, persists exactly one new record — the draft exactly as
submitted, whose status is therefore the draft's status, defaulted by the
schema to `"pending"` when the client sends none — and answers with the
store's fresh non-empty identifier and the explicit `"not_configured"`
marker, not an error. -/
theorem claim6_no_gateway_mode (keyId keySecret : String) (gw : GatewayResponse)
    (st : List StoredOrder) (o : Order) (h : keyId = "" ∨ keySecret = "") :
    create_order keyId keySecret gw st o =
      ⟨st ++ [⟨freshId st, o⟩], .ok_no_gateway (freshId st) "not_configured", false⟩ ∧
    freshId st ≠ "" := by
  constructor
  · unfold create_order
    rw [if_pos h]
    rfl
  · exact freshId_ne_empty st

/-- Concrete run of C6's amended statement without credentials. -/
theorem claim6_witness :
    create_order "" "" gw200 [] demoOrder =
      ⟨[⟨freshId [], demoOrder⟩], .ok_no_gateway (freshId []) "not_configured", false⟩ ∧
    freshId ([] : List StoredOrder) ≠ "" := by
  have h := claim6_no_gateway_mode "" "" gw200 [] demoOrder (Or.inl rfl)
  exact ⟨h.1, h.2⟩

/-- C6 (counterexample to the claim as stated): the handler persists the
draft as-is, so a schema-valid draft arriving with status `"cancelled"` is
persisted with status `"cancelled"`, not `"pending"`. -/
theorem claim6_counterexample :
    validateOrder draftCancelled = true ∧
    (create_order "" "" gw200 [] draftCancelled).store.map (fun s => s.doc.status) =
      ["cancelled"] ∧
    "cancelled" ≠ "pending" := by
  refine ⟨by decide, ?_, by decide⟩
  simp [create_order, create_document, draftCancelled]

end PerfumeStore
